import Mathlib

/-!
Shallow embedding of the curricular-adaptations tracking client
(`src/lib/storage.ts`, `src/lib/api.ts`, the `AuthContext` sign-in chain and
the form submit handlers).  Machine-level details that the claims do not
depend on are abstracted as follows: `generateId()` (`Date.now()` plus a
random suffix) is modelled by a counter supply threaded through the store
state, `new Date().toISOString()` by an explicit `now : String` argument,
and `new Date(x).toISOString()` by a function parameter `toIso`.
JavaScript values that cross the wire are modelled by a `Json` inductive;
JavaScript truthiness and `x || y` defaulting are modelled explicitly.
-/

/-- JSON-like JavaScript values returned by the remote API. -/
inductive Json where
  | null : Json
  | bool (b : Bool) : Json
  | num (n : Int) : Json
  | str (s : String) : Json
  | arr (xs : List Json) : Json
  | obj (fields : List (String × Json)) : Json

/-- First field of an object with the given name, as JS property access;
a missing property (or a non-object receiver) reads as `null`, which has
the same truthiness as JS `undefined`. -/
def getField (j : Json) (name : String) : Json :=
  match j with
  | .obj fields =>
    match fields.find? (fun f => f.1 == name) with
    | some f => f.2
    | none => .null
  | _ => .null

/-- Field lookup on an object's field list (JS property access on a plain
object literal). -/
def lookupField (fields : List (String × Json)) (name : String) : Option Json :=
  (fields.find? (fun f => f.1 == name)).map (fun f => f.2)

/-- JavaScript truthiness of a `Json` value. -/
def jsTruthy : Json → Bool
  | .null => false
  | .bool b => b
  | .num n => n != 0
  | .str s => s != ""
  | .arr _ => true
  | .obj _ => true

/-- JSON.stringify, used by the merge key fallback. -/
def jsonStringify : Json → String
  | .null => "null"
  | .bool b => if b then "true" else "false"
  | .num n => toString n
  | .str s => "\x22" ++ s ++ "\x22"
  | .arr xs => "[" ++ String.intercalate "," (joinList xs) ++ "]"
  | .obj fields => "\x7b" ++ String.intercalate "," (joinFields fields) ++ "\x7d"
where
  joinList : List Json → List String
    | [] => []
    | x :: xs => jsonStringify x :: joinList xs
  joinFields : List (String × Json) → List String
    | [] => []
    | (k, v) :: fs => ("\x22" ++ k ++ "\x22:" ++ jsonStringify v) :: joinFields fs

/-- JS `String(x)` conversion for the values that reach the merge key. -/
def toStringJs : Json → String
  | .null => "null"
  | .bool b => if b then "true" else "false"
  | .num n => toString n
  | .str s => s
  | .arr xs => String.intercalate "," (parts xs)
  | .obj _ => "[object Object]"
where
  parts : List Json → List String
    | [] => []
    | x :: xs => toStringJs x :: parts xs

/-- JS `x || d` where `x` is an optional string and `d` a string default:
`undefined` and the empty string are both falsy. -/
def orElseStr (x : Option String) (d : String) : String :=
  match x with
  | none => d
  | some s => if s = "" then d else s

/-- Date part of an ISO timestamp: `iso.split('T')[0]`. -/
def dateOnly (iso : String) : String :=
  (iso.splitOn "T").headD ""

/-- User record (`src/types`): `{id, email, name, role}`. -/
structure User where
  id : String
  email : String
  name : String
  role : String
deriving DecidableEq

/-- Student record (`src/types`). -/
structure Student where
  id : String
  name : String
  course : String
  class_ : String
  birthDate : String
  registrationNumber : String
  guardianName : Option String
  guardianContact : Option String
  createdAt : String
  createdBy : String
  updatedAt : Option String
  updatedBy : Option String
deriving DecidableEq

/-- Adaptation record (`src/types`). -/
structure Adaptation where
  id : String
  studentId : String
  description : String
  justification : String
  date : String
  createdAt : String
  createdBy : String
  updatedAt : Option String
deriving DecidableEq

/-- Report record (`src/types`). -/
structure Report where
  id : String
  studentId : String
  teacherId : String
  teacherName : String
  subject : String
  date : String
  result : String
  description : String
  createdAt : String
  updatedAt : Option String
deriving DecidableEq

/-- The Local Record Store: the four entity collections of `localStorage`
(keys `adaptacao_users`, `adaptacao_students`, `adaptacao_adaptations`,
`adaptacao_reports`), the persisted current user (`adaptacao_current_user`)
and the id-generator supply that models `generateId()`. -/
structure Store where
  users : List User
  students : List Student
  adaptations : List Adaptation
  reports : List Report
  currentUser : Option User
  nextId : Nat
deriving DecidableEq

/-- A store with every collection empty, as on first launch. -/
def emptyStore : Store :=
  { users := [], students := [], adaptations := [], reports := [],
    currentUser := none, nextId := 0 }

/-- Fresh identifier from the supply, modelling `generateId()`. -/
def genId (s : Store) : String × Store :=
  ("id-" ++ toString s.nextId, { s with nextId := s.nextId + 1 })

/-- Partial Student payload (`Partial<Student>`), a field being `none`
when the key is absent from the object literal. -/
structure StudentPatch where
  id : Option String := none
  name : Option String := none
  course : Option String := none
  class_ : Option String := none
  birthDate : Option String := none
  registrationNumber : Option String := none
  guardianName : Option String := none
  guardianContact : Option String := none
  createdAt : Option String := none
  createdBy : Option String := none
deriving DecidableEq

/-- Partial Adaptation payload (`Partial<Adaptation>`). -/
structure AdaptationPatch where
  id : Option String := none
  studentId : Option String := none
  description : Option String := none
  justification : Option String := none
  date : Option String := none
  createdAt : Option String := none
  createdBy : Option String := none
deriving DecidableEq

/-- Partial Report payload (`Partial<Report>`). -/
structure ReportPatch where
  id : Option String := none
  studentId : Option String := none
  teacherId : Option String := none
  teacherName : Option String := none
  subject : Option String := none
  date : Option String := none
  result : Option String := none
  description : Option String := none
  createdAt : Option String := none
deriving DecidableEq

/-- `studentStorage.create` (storage.ts 198-218): note the `id` of the
payload is ignored and a fresh `generateId()` is always used. -/
def studentCreate (now : String) (d : StudentPatch) (s : Store) : Student × Store :=
  let (newId, s1) := genId s
  let cu := s.currentUser
  let st : Student :=
    { id := newId,
      name := orElseStr d.name "",
      course := orElseStr d.course "",
      class_ := orElseStr d.class_ "",
      birthDate := orElseStr d.birthDate "",
      registrationNumber := orElseStr d.registrationNumber "",
      guardianName := d.guardianName,
      guardianContact := d.guardianContact,
      createdAt := now,
      createdBy := orElseStr (cu.map (fun u => u.id)) "",
      updatedAt := none,
      updatedBy := none }
  (st, { s1 with students := s1.students ++ [st] })

/-- `adaptationStorage.create` (storage.ts 266-283): the payload's `id`
is ignored, `generateId()` is always used. -/
def adaptationCreate (now : String) (d : AdaptationPatch) (s : Store) : Adaptation × Store :=
  let (newId, s1) := genId s
  let cu := s.currentUser
  let a : Adaptation :=
    { id := newId,
      studentId := orElseStr d.studentId "",
      description := orElseStr d.description "",
      justification := orElseStr d.justification "",
      date := orElseStr d.date (dateOnly now),
      createdAt := now,
      createdBy := orElseStr (cu.map (fun u => u.id)) "",
      updatedAt := none }
  (a, { s1 with adaptations := s1.adaptations ++ [a] })

/-- `reportStorage.create` (storage.ts 330-349): the payload's `id` is
ignored, `generateId()` is always used. -/
def reportCreate (now : String) (d : ReportPatch) (s : Store) : Report × Store :=
  let (newId, s1) := genId s
  let cu := s.currentUser
  let r : Report :=
    { id := newId,
      studentId := orElseStr d.studentId "",
      teacherId := orElseStr (cu.map (fun u => u.id)) "",
      teacherName := orElseStr (cu.map (fun u => u.name)) "",
      subject := orElseStr d.subject "",
      date := orElseStr d.date (dateOnly now),
      result := orElseStr d.result "neutro",
      description := orElseStr d.description "",
      createdAt := now,
      updatedAt := none }
  (r, { s1 with reports := s1.reports ++ [r] })

/-- Record produced by `studentStorage.update`'s assignment
`{...students[index], ...updates, id, updatedAt, updatedBy: currentUser?.id}`:
spread of the stored record with the present patch fields, then the id is
forced back to the argument and the audit stamps are set. -/
def patchedStudent (now : String) (cu : Option User) (id : String)
    (p : StudentPatch) (old : Student) : Student :=
  { id := id,
    name := p.name.getD old.name,
    course := p.course.getD old.course,
    class_ := p.class_.getD old.class_,
    birthDate := p.birthDate.getD old.birthDate,
    registrationNumber := p.registrationNumber.getD old.registrationNumber,
    guardianName := match p.guardianName with | some v => some v | none => old.guardianName,
    guardianContact := match p.guardianContact with | some v => some v | none => old.guardianContact,
    createdAt := p.createdAt.getD old.createdAt,
    createdBy := p.createdBy.getD old.createdBy,
    updatedAt := some now,
    updatedBy := cu.map (fun u => u.id) }

/-- In-place update of the first student whose id matches (the
`findIndex` / index-assignment of `studentStorage.update`); `none` when no
index matches. -/
def updateFirstStudent (now : String) (cu : Option User) (id : String)
    (p : StudentPatch) : List Student → Option (Student × List Student)
  | [] => none
  | st :: rest =>
    if st.id == id then
      let st' := patchedStudent now cu id p st
      some (st', st' :: rest)
    else
      match updateFirstStudent now cu id p rest with
      | none => none
      | some (r, rest') => some (r, st :: rest')

/-- `studentStorage.update` (storage.ts 220-237). -/
def studentUpdate (now : String) (id : String) (p : StudentPatch) (s : Store) :
    Option Student × Store :=
  match updateFirstStudent now s.currentUser id p s.students with
  | none => (none, s)
  | some (r, l') => (some r, { s with students := l' })

/-- Record produced by `adaptationStorage.update`'s assignment (no
`updatedBy` stamp on adaptations). -/
def patchedAdaptation (now : String) (id : String)
    (p : AdaptationPatch) (old : Adaptation) : Adaptation :=
  { id := id,
    studentId := p.studentId.getD old.studentId,
    description := p.description.getD old.description,
    justification := p.justification.getD old.justification,
    date := p.date.getD old.date,
    createdAt := p.createdAt.getD old.createdAt,
    createdBy := p.createdBy.getD old.createdBy,
    updatedAt := some now }

/-- In-place update of the first adaptation whose id matches. -/
def updateFirstAdaptation (now : String) (id : String) (p : AdaptationPatch) :
    List Adaptation → Option (Adaptation × List Adaptation)
  | [] => none
  | a :: rest =>
    if a.id == id then
      let a' := patchedAdaptation now id p a
      some (a', a' :: rest)
    else
      match updateFirstAdaptation now id p rest with
      | none => none
      | some (r, rest') => some (r, a :: rest')

/-- `adaptationStorage.update` (storage.ts 285-300). -/
def adaptationUpdate (now : String) (id : String) (p : AdaptationPatch) (s : Store) :
    Option Adaptation × Store :=
  match updateFirstAdaptation now id p s.adaptations with
  | none => (none, s)
  | some (r, l') => (some r, { s with adaptations := l' })

/-- Record produced by `reportStorage.update`'s assignment. -/
def patchedReport (now : String) (id : String) (p : ReportPatch) (old : Report) : Report :=
  { id := id,
    studentId := p.studentId.getD old.studentId,
    teacherId := p.teacherId.getD old.teacherId,
    teacherName := p.teacherName.getD old.teacherName,
    subject := p.subject.getD old.subject,
    date := p.date.getD old.date,
    result := p.result.getD old.result,
    description := p.description.getD old.description,
    createdAt := p.createdAt.getD old.createdAt,
    updatedAt := some now }

/-- In-place update of the first report whose id matches. -/
def updateFirstReport (now : String) (id : String) (p : ReportPatch) :
    List Report → Option (Report × List Report)
  | [] => none
  | r :: rest =>
    if r.id == id then
      let r' := patchedReport now id p r
      some (r', r' :: rest)
    else
      match updateFirstReport now id p rest with
      | none => none
      | some (x, rest') => some (x, r :: rest')

/-- `reportStorage.update` (storage.ts 351-366). -/
def reportUpdate (now : String) (id : String) (p : ReportPatch) (s : Store) :
    Option Report × Store :=
  match updateFirstReport now id p s.reports with
  | none => (none, s)
  | some (r, l') => (some r, { s with reports := l' })

/-- `adaptationStorage.deleteByStudent` (storage.ts 312-316). -/
def adaptationDeleteByStudent (studentId : String) (s : Store) : Store :=
  { s with adaptations := s.adaptations.filter (fun a => a.studentId != studentId) }

/-- `reportStorage.deleteByStudent` (storage.ts 378-382). -/
def reportDeleteByStudent (studentId : String) (s : Store) : Store :=
  { s with reports := s.reports.filter (fun r => r.studentId != studentId) }

/-- `studentStorage.delete` (storage.ts 239-252): filter the student out;
when nothing was removed report `false`, otherwise persist and cascade to
the adaptations and reports of that student. -/
def studentDelete (id : String) (s : Store) : Bool × Store :=
  let filtered := s.students.filter (fun st => st.id != id)
  if filtered.length == s.students.length then (false, s)
  else
    let s1 := { s with students := filtered }
    let s2 := adaptationDeleteByStudent id s1
    let s3 := reportDeleteByStudent id s2
    (true, s3)

/-- `adaptationStorage.delete` (storage.ts 302-310). -/
def adaptationDelete (id : String) (s : Store) : Bool × Store :=
  let filtered := s.adaptations.filter (fun a => a.id != id)
  if filtered.length == s.adaptations.length then (false, s)
  else (true, { s with adaptations := filtered })

/-- Fixed local credential table of `authStorage.signIn`
(storage.ts 156-159). -/
def validCredentials : List (String × String) :=
  [("coordenador@escola.com", "coord123"), ("professor@escola.com", "prof123")]

/-- `authStorage.signIn` (storage.ts 149-176): validate the pair against
the table, then look the user up by email and persist it as current user. -/
def authSignIn (email password : String) (s : Store) : Option User × Store :=
  let isValid := validCredentials.any (fun c => c.1 == email && c.2 == password)
  if isValid then
    match s.users.find? (fun u => u.email == email) with
    | some u => (some u, { s with currentUser := some u })
    | none => (none, s)
  else (none, s)

/-- The persisted session slots of `localStorage` (`token` and `user`). -/
structure SessionStore where
  token : Option String
  user : Option User
deriving DecidableEq

/-- The `AuthContext.signIn` fallback chain.  The two remote stages
(Supabase session auth plus `/me`, and the `/users?email=` lookup) are
modelled by their outcomes: `some (token, profile)` when the stage yields a
session, `none` when it fails or finds nothing (both are swallowed by the
source's `try`/`catch`).  The final stage is the local credential check;
when it also fails the chain throws the Portuguese user-not-found error. -/
def signInChain (stage1 stage2 : Option (String × User)) (email password : String)
    (s : Store) : Except String (User × Store × SessionStore) :=
  match stage1 with
  | some (tok, u) => .ok (u, s, { token := some tok, user := some u })
  | none =>
    match stage2 with
    | some (tok, u) => .ok (u, s, { token := some tok, user := some u })
    | none =>
      match authSignIn email password s with
      | (some u, s') =>
        .ok (u, s', { token := some ("mock-token-" ++ u.id), user := some u })
      | (none, _) => .error "Usuário não encontrado. Verifique o e-mail ou senha."

/-- `initializeDefaultUsers` (storage.ts 32-52): runs only when the user
collection is empty. -/
def initializeDefaultUsers (s : Store) : Store :=
  if s.users.length == 0 then
    let (id1, s1) := genId s
    let (id2, s2) := genId s1
    { s2 with users :=
      [ { id := id1, email := "coordenador@escola.com", name := "Maria Silva",
          role := "coordenador" },
        { id := id2, email := "professor@escola.com", name := "João Santos",
          role := "professor" } ] }
  else s

/-- `initializeDefaultData` (storage.ts 55-120): returns unchanged when
students already exist; otherwise seeds two sample students, pushes one
adaptation and one report for the first sample student. -/
def initializeDefaultData (now : String) (s : Store) : Store :=
  if s.students.length > 0 then s
  else
    let coordinator := s.users.find? (fun u => u.role == "coordenador")
    let professor := s.users.find? (fun u => u.role == "professor")
    let (id1, s1) := genId s
    let (id2, s2) := genId s1
    let st1 : Student :=
      { id := id1, name := "Ana Pereira", course := "Ensino Médio", class_ := "2A",
        birthDate := "2006-05-12", registrationNumber := "2021001",
        guardianName := some "Carlos Pereira", guardianContact := some "11999998888",
        createdAt := now, createdBy := orElseStr (coordinator.map (fun u => u.id)) "",
        updatedAt := none, updatedBy := none }
    let st2 : Student :=
      { id := id2, name := "Bruno Costa", course := "Ensino Médio", class_ := "2B",
        birthDate := "2005-08-20", registrationNumber := "2021002",
        guardianName := some "Mariana Costa", guardianContact := some "11988887777",
        createdAt := now, createdBy := orElseStr (coordinator.map (fun u => u.id)) "",
        updatedAt := none, updatedBy := none }
    let s3 := { s2 with students := [st1, st2] }
    let (aid, s4) := genId s3
    let a : Adaptation :=
      { id := aid, studentId := st1.id, description := "Tempo extra para provas",
        justification := "Necessidade de processamento mais lento",
        date := dateOnly now, createdAt := now,
        createdBy := orElseStr (coordinator.map (fun u => u.id)) "",
        updatedAt := none }
    let s5 := { s4 with adaptations := s4.adaptations ++ [a] }
    let (rid, s6) := genId s5
    let r : Report :=
      { id := rid, studentId := st1.id,
        teacherId := orElseStr (professor.map (fun u => u.id)) "",
        teacherName := orElseStr (professor.map (fun u => u.name)) "João Santos",
        subject := "Matemática", date := dateOnly now, result := "neutro",
        description := "Observações sobre rendimento", createdAt := now,
        updatedAt := none }
    { s6 with reports := s6.reports ++ [r] }

/-- Both initializers, in the order `AuthProvider`'s effect runs them. -/
def initializeAll (now : String) (s : Store) : Store :=
  initializeDefaultData now (initializeDefaultUsers s)

/-- Normalized error thrown by `apiFetch` (api.ts 25-31): HTTP status plus
message; a timeout surfaces as status 408. -/
structure ApiError where
  status : Nat
  message : String
deriving DecidableEq

/-- Envelope unwrapping shared by the list operations of `api`
(api.ts 48-57, 60-75, 87-102): a bare array is kept, an object is probed
for a `value` array and then for the entity-named array, anything else
becomes the empty list. -/
def unwrapEnvelope (entityField : String) (res : Json) : List Json :=
  match res with
  | .arr xs => xs
  | .obj fields =>
    (match lookupField fields "value" with
     | some (.arr xs) => xs
     | _ =>
       match lookupField fields entityField with
       | some (.arr xs) => xs
       | _ => [])
  | _ => []

/-- `api.getStudents` (api.ts 48-57): no `try`/`catch` around the fetch,
so every `apiFetch` error — including a 404 — propagates. -/
def getStudents (outcome : Except ApiError Json) : Except ApiError (List Json) :=
  match outcome with
  | .ok res => .ok (unwrapEnvelope "students" res)
  | .error e => .error e

/-- `api.getAdaptations` (api.ts 60-75): a 404 from the fetch is caught
and becomes the empty list; other errors rethrow. -/
def getAdaptations (outcome : Except ApiError Json) : Except ApiError (List Json) :=
  match outcome with
  | .ok res => .ok (unwrapEnvelope "adaptations" res)
  | .error e => if e.status == 404 then .ok [] else .error e

/-- `api.getReports` (api.ts 87-102): same 404 handling as adaptations. -/
def getReports (outcome : Except ApiError Json) : Except ApiError (List Json) :=
  match outcome with
  | .ok res => .ok (unwrapEnvelope "reports" res)
  | .error e => if e.status == 404 then .ok [] else .error e

/-- The two remote paths `api.updateAdaptation` can PUT to. -/
inductive PutPath where
  | flat : PutPath
  | nested : PutPath
deriving DecidableEq

/-- `api.updateAdaptation` (api.ts 77-86): PUT the flat path
`/adaptations/{id}`; on a 404 retry once against the nested path
`/adaptations/{studentId}/{id}`; other errors rethrow with no retry.
The result pairs the final outcome with the list of attempted paths. -/
def updateAdaptationApi (flatOutcome nestedOutcome : Except ApiError Json) :
    Except ApiError Json × List PutPath :=
  match flatOutcome with
  | .ok v => (.ok v, [.flat])
  | .error e =>
    if e.status == 404 then (nestedOutcome, [.flat, .nested])
    else (.error e, [.flat])

/-- Create branch of `AdaptationForm.handleSubmit` (part_001 85-121):
try the remote create; when it returns an object with a truthy `id`, pass
that id along in the local create payload (where `adaptationStorage.create`
ignores it); when the remote call fails, create locally from the form
fields alone.  `toIso` models `new Date(x).toISOString()`. -/
def adaptationFormCreate (toIso : String → String) (now studentId descr justif dateField : String)
    (remote : Except ApiError Json) (s : Store) : Adaptation × Store :=
  match remote with
  | .ok res =>
    if jsTruthy res && jsTruthy (getField res "id") then
      adaptationCreate now
        { id := some (toStringJs (getField res "id")), studentId := some studentId,
          description := some descr, justification := some justif,
          date := some (toIso dateField) } s
    else
      adaptationCreate now
        { studentId := some studentId, description := some descr,
          justification := some justif, date := some (toIso dateField) } s
  | .error _ =>
    adaptationCreate now
      { studentId := some studentId, description := some descr,
        justification := some justif, date := some (toIso dateField) } s

/-- Update branch of `AdaptationForm.handleSubmit` (part_001 68-84): the
remote PUT outcome (flat attempt, nested retry) is swallowed by the inner
`catch`, and the local update always runs on the submitted fields. -/
def adaptationFormUpdate (toIso : String → String) (now adaptationId descr justif dateField : String)
    (remoteFlat remoteNested : Except ApiError Json) (s : Store) :
    Option Adaptation × Store :=
  let _ := updateAdaptationApi remoteFlat remoteNested
  adaptationUpdate now adaptationId
    { description := some descr, justification := some justif,
      date := some (toIso dateField) } s

/-- Create branch of `ReportForm.handleSubmit` (part_003): same dual-write
shape as the adaptation form. -/
def reportFormCreate (toIso : String → String)
    (now studentId subject resultField descr dateField : String)
    (remote : Except ApiError Json) (s : Store) : Report × Store :=
  match remote with
  | .ok res =>
    if jsTruthy res && jsTruthy (getField res "id") then
      reportCreate now
        { id := some (toStringJs (getField res "id")), studentId := some studentId,
          subject := some subject, result := some resultField,
          description := some descr, date := some (toIso dateField) } s
    else
      reportCreate now
        { studentId := some studentId, subject := some subject,
          result := some resultField, description := some descr,
          date := some (toIso dateField) } s
  | .error _ =>
    reportCreate now
      { studentId := some studentId, subject := some subject,
        result := some resultField, description := some descr,
        date := some (toIso dateField) } s

/-- Modelled from the spec: the Student dual-write create path.  The
repository imports `StudentForm` (CoordinatorDashboard.tsx line 3) but that
file is missing from the sources, so this follows section 4.4 of the spec:
attempt the remote create with the payload; if it returns an object with an
identifier, perform the local create using that same identifier (threaded
into the payload of the embedded `studentStorage.create`); if the remote
call fails or returns no identifier, perform the local create letting the
Local Record Store assign an identifier; the operation never fails
outright. -/
def studentFormCreate (remote : Except ApiError Json) (now : String)
    (d : StudentPatch) (s : Store) : Student × Store :=
  match remote with
  | .ok res =>
    if jsTruthy res && jsTruthy (getField res "id") then
      studentCreate now { d with id := some (toStringJs (getField res "id")) } s
    else
      studentCreate now d s
  | .error _ => studentCreate now d s

/-- Merge key of `StudentReport.loadReport` (part_002 90-94):
`String(a.id || a._localId || JSON.stringify(a))`. -/
def mergeKey (a : Json) : String :=
  if jsTruthy (getField a "id") then toStringJs (getField a "id")
  else if jsTruthy (getField a "_localId") then toStringJs (getField a "_localId")
  else jsonStringify a

/-- Insertion into a JS `Map`: replace in place when the key is present,
append otherwise. -/
def upsert : List (String × Json) → String → Json → List (String × Json)
  | [], k, v => [(k, v)]
  | (k', v') :: rest, k, v =>
    if k' = k then (k, v) :: rest else (k', v') :: upsert rest k v

/-- `entries.forEach(a => map.set(key(a), a))` over an existing map. -/
def mergeInto (m : List (String × Json)) (entries : List Json) : List (String × Json) :=
  entries.foldl (fun acc a => upsert acc (mergeKey a) a) m

/-- The merged map of `StudentReport.loadReport`: remote entries inserted
first, local entries second so local overwrites remote at equal keys. -/
def mergeById (remote localEntries : List Json) : List (String × Json) :=
  mergeInto (mergeInto [] remote) localEntries

/-- `Array.from(map.values())`. -/
def mergeValues (m : List (String × Json)) : List Json :=
  m.map (fun p => p.2)

/-- Lookup by key in the insertion-ordered map. -/
def lookupKey (k : String) : List (String × Json) → Option Json
  | [] => none
  | (k', v) :: rest => if k' = k then some v else lookupKey k rest

/-- `asArray` of `StudentReport.loadReport` (part_002 82-87). -/
def asArray (v : Json) : List Json :=
  if jsTruthy v then
    match v with
    | .arr xs => xs
    | .obj _ => [v]
    | _ => []
  else []

/-- `getFromStorage` (storage.ts 13-20) over a raw `localStorage` slot:
a missing item or an empty string yields the default, and a parse failure
(`JSON.parse` throwing, modelled by the `parse` argument returning `none`)
is caught and yields the default as well. -/
def getFromStorage {α : Type} (parse : String → Option α) (raw : Option String)
    (dflt : α) : α :=
  match raw with
  | none => dflt
  | some item =>
    if item = "" then dflt
    else match parse item with
    | none => dflt
    | some v => v

/-- `studentStorage.getAll` (storage.ts 189-191) reading a raw slot. -/
def studentsGetAll (parse : String → Option (List Student)) (raw : Option String) :
    List Student :=
  getFromStorage parse raw []

/-- `studentStorage.getById` (storage.ts 193-196) reading a raw slot. -/
def studentsGetById (parse : String → Option (List Student)) (raw : Option String)
    (id : String) : Option Student :=
  (studentsGetAll parse raw).find? (fun st => st.id == id)

/-- Last entry of the list with the given merge key, the value a JS `Map`
holds at that key after the insertions. -/
def lastKeyed (k : String) : List Json → Option Json
  | [] => none
  | a :: t =>
    match lastKeyed k t with
    | some v => some v
    | none => if mergeKey a = k then some a else none

/-- Well-formedness of the insertion-ordered maps built by `mergeInto`:
every stored key is the merge key of its value, and keys are distinct. -/
def mapWF (m : List (String × Json)) : Prop :=
  (∀ p ∈ m, mergeKey p.2 = p.1) ∧ (m.map Prod.fst).Nodup

/-- Sample coordinator user for concrete evaluations. -/
def wCoord : User :=
  { id := "U1", email := "coordenador@escola.com", name := "Maria Silva",
    role := "coordenador" }

/-- Sample professor user for concrete evaluations. -/
def wProf : User :=
  { id := "U2", email := "professor@escola.com", name := "João Santos",
    role := "professor" }

/-- Sample student for concrete evaluations. -/
def wStudent : Student :=
  { id := "S1", name := "Ana", course := "EM", class_ := "2A",
    birthDate := "2006-05-12", registrationNumber := "1", guardianName := none,
    guardianContact := none, createdAt := "2024-01-01", createdBy := "U1",
    updatedAt := none, updatedBy := none }

/-- Sample adaptation for concrete evaluations. -/
def wAdaptation : Adaptation :=
  { id := "A1", studentId := "S1", description := "d", justification := "j",
    date := "2024-01-01", createdAt := "2024-01-01", createdBy := "U1",
    updatedAt := none }

/-- Sample report for concrete evaluations. -/
def wReport : Report :=
  { id := "R1", studentId := "S1", teacherId := "U2", teacherName := "João Santos",
    subject := "Mat", date := "2024-01-01", result := "neutro", description := "obs",
    createdAt := "2024-01-01", updatedAt := none }

/-- Sample populated store for concrete evaluations. -/
def wStore : Store :=
  { users := [wCoord, wProf], students := [wStudent], adaptations := [wAdaptation],
    reports := [wReport], currentUser := some wCoord, nextId := 7 }

/-- JS `x || ''` on a present string returns the string itself (when the
string is empty both sides are the empty string). -/
theorem orElseStr_some_empty (x : String) : orElseStr (some x) "" = x := by
  unfold orElseStr
  by_cases hx : x = "" <;> simp [hx]

/-- JS `x || d` on a present nonempty string returns the string. -/
theorem orElseStr_some_of_ne (x d : String) (h : x ≠ "") :
    orElseStr (some x) d = x := by
  unfold orElseStr
  simp [h]

/-- C1: the claim says that when the remote create succeeds with id `X`
the local record is created with id exactly `X`.  The form does thread the
remote id into the local create payload (with the comment `persist locally
with remote id when possible`), but `adaptationStorage.create` ignores the
payload's `id` and always assigns `generateId()`: at the concrete failing
input below the remote returns id `R1` and the local record gets the fresh
generator id instead. -/
theorem C1_remote_id_dropped :
    ((adaptationFormCreate (fun x => x) "2024-01-01T00:00:00.000Z" "S1" "d" "j"
        "2024-01-01" (Except.ok (Json.obj [("id", Json.str "R1")])) emptyStore).1.id
      = "id-0")
    ∧ ((adaptationFormCreate (fun x => x) "2024-01-01T00:00:00.000Z" "S1" "d" "j"
        "2024-01-01" (Except.ok (Json.obj [("id", Json.str "R1")])) emptyStore).1.id
      ≠ "R1")
    ∧ ((reportFormCreate (fun x => x) "2024-01-01T00:00:00.000Z" "S1" "Mat" "neutro"
        "obs" "2024-01-01" (Except.ok (Json.obj [("id", Json.str "R1")])) emptyStore).1.id
      = "id-0") := by
  refine ⟨rfl, ?_, rfl⟩
  decide

/-- C2: when the remote create fails, the creation still succeeds locally
for every entity kind.  The adaptation form's catch branch creates the
record carrying the submitted studentId, description, justification and
date, with the freshly generated identifier (the generator's next output),
appended to the local collection; the report form behaves the same; and
the Student create path (modelled from the spec, its form file being
absent) hands the payload to `studentStorage.create`, which produces a
record with all submitted field values and a fresh identifier.  No error
escapes: every submit pipeline is a total function here, mirroring the
swallowed `catch`. -/
theorem C2_offline_create_local (toIso : String → String)
    (now sid d j dt sub res2 rdesc rdt : String) (e e2 : ApiError) (s s2 : Store)
    (now3 nm cs cl bd rn : String) (gn gc : Option String) (e3 : ApiError) (s3 : Store)
    (hdt : toIso dt ≠ "") (hres : res2 ≠ "") (hrdt : toIso rdt ≠ "") :
    ((adaptationFormCreate toIso now sid d j dt (Except.error e) s).1.id
        = "id-" ++ toString s.nextId)
    ∧ (adaptationFormCreate toIso now sid d j dt (Except.error e) s).1.studentId = sid
    ∧ (adaptationFormCreate toIso now sid d j dt (Except.error e) s).1.description = d
    ∧ (adaptationFormCreate toIso now sid d j dt (Except.error e) s).1.justification = j
    ∧ (adaptationFormCreate toIso now sid d j dt (Except.error e) s).1.date = toIso dt
    ∧ (adaptationFormCreate toIso now sid d j dt (Except.error e) s).2.adaptations
        = s.adaptations ++ [(adaptationFormCreate toIso now sid d j dt (Except.error e) s).1]
    ∧ ((reportFormCreate toIso now sid sub res2 rdesc rdt (Except.error e2) s2).1.id
        = "id-" ++ toString s2.nextId)
    ∧ (reportFormCreate toIso now sid sub res2 rdesc rdt (Except.error e2) s2).1.studentId = sid
    ∧ (reportFormCreate toIso now sid sub res2 rdesc rdt (Except.error e2) s2).1.subject = sub
    ∧ (reportFormCreate toIso now sid sub res2 rdesc rdt (Except.error e2) s2).1.result = res2
    ∧ (reportFormCreate toIso now sid sub res2 rdesc rdt (Except.error e2) s2).1.description = rdesc
    ∧ (reportFormCreate toIso now sid sub res2 rdesc rdt (Except.error e2) s2).1.date = toIso rdt
    ∧ (reportFormCreate toIso now sid sub res2 rdesc rdt (Except.error e2) s2).2.reports
        = s2.reports ++ [(reportFormCreate toIso now sid sub res2 rdesc rdt (Except.error e2) s2).1]
    ∧ ((studentFormCreate (Except.error e3) now3
        { name := some nm, course := some cs, class_ := some cl,
          birthDate := some bd, registrationNumber := some rn,
          guardianName := gn, guardianContact := gc } s3).1.id
        = "id-" ++ toString s3.nextId)
    ∧ (studentFormCreate (Except.error e3) now3
        { name := some nm, course := some cs, class_ := some cl,
          birthDate := some bd, registrationNumber := some rn,
          guardianName := gn, guardianContact := gc } s3).1.name = nm
    ∧ (studentFormCreate (Except.error e3) now3
        { name := some nm, course := some cs, class_ := some cl,
          birthDate := some bd, registrationNumber := some rn,
          guardianName := gn, guardianContact := gc } s3).1.course = cs
    ∧ (studentFormCreate (Except.error e3) now3
        { name := some nm, course := some cs, class_ := some cl,
          birthDate := some bd, registrationNumber := some rn,
          guardianName := gn, guardianContact := gc } s3).1.class_ = cl
    ∧ (studentFormCreate (Except.error e3) now3
        { name := some nm, course := some cs, class_ := some cl,
          birthDate := some bd, registrationNumber := some rn,
          guardianName := gn, guardianContact := gc } s3).1.birthDate = bd
    ∧ (studentFormCreate (Except.error e3) now3
        { name := some nm, course := some cs, class_ := some cl,
          birthDate := some bd, registrationNumber := some rn,
          guardianName := gn, guardianContact := gc } s3).1.registrationNumber = rn
    ∧ (studentFormCreate (Except.error e3) now3
        { name := some nm, course := some cs, class_ := some cl,
          birthDate := some bd, registrationNumber := some rn,
          guardianName := gn, guardianContact := gc } s3).1.guardianName = gn
    ∧ (studentFormCreate (Except.error e3) now3
        { name := some nm, course := some cs, class_ := some cl,
          birthDate := some bd, registrationNumber := some rn,
          guardianName := gn, guardianContact := gc } s3).1.guardianContact = gc
    ∧ (studentFormCreate (Except.error e3) now3
        { name := some nm, course := some cs, class_ := some cl,
          birthDate := some bd, registrationNumber := some rn,
          guardianName := gn, guardianContact := gc } s3).2.students
        = s3.students ++ [(studentFormCreate (Except.error e3) now3
            { name := some nm, course := some cs, class_ := some cl,
              birthDate := some bd, registrationNumber := some rn,
              guardianName := gn, guardianContact := gc } s3).1] := by
  refine ⟨rfl, ?_, ?_, ?_, ?_, rfl, rfl, ?_, ?_, ?_, ?_, ?_, rfl,
    rfl, ?_, ?_, ?_, ?_, ?_, rfl, rfl, rfl⟩
  · exact orElseStr_some_empty sid
  · exact orElseStr_some_empty d
  · exact orElseStr_some_empty j
  · exact orElseStr_some_of_ne _ _ hdt
  · exact orElseStr_some_empty sid
  · exact orElseStr_some_empty sub
  · exact orElseStr_some_of_ne _ _ hres
  · exact orElseStr_some_empty rdesc
  · exact orElseStr_some_of_ne _ _ hrdt
  · exact orElseStr_some_empty nm
  · exact orElseStr_some_empty cs
  · exact orElseStr_some_empty cl
  · exact orElseStr_some_empty bd
  · exact orElseStr_some_empty rn

/-- Witness for C2 at concrete inputs, exercising the adaptation and the
student offline create paths. -/
theorem C2_offline_create_local_witness :
    ((adaptationFormCreate (fun x => x) "2024-01-01T00:00:00.000Z" "S1" "d" "j"
        "2024-01-01" (Except.error { status := 500, message := "down" }) wStore).1.id
      = "id-7")
    ∧ (adaptationFormCreate (fun x => x) "2024-01-01T00:00:00.000Z" "S1" "d" "j"
        "2024-01-01" (Except.error { status := 500, message := "down" }) wStore).1.studentId
      = "S1"
    ∧ ((studentFormCreate (Except.error { status := 500, message := "down" })
        "2024-01-01T00:00:00.000Z"
        { name := some "Zoe", course := some "EM", class_ := some "3C",
          birthDate := some "2007-01-01", registrationNumber := some "77",
          guardianName := some "Gui", guardianContact := none } wStore).1.id
      = "id-7")
    ∧ (studentFormCreate (Except.error { status := 500, message := "down" })
        "2024-01-01T00:00:00.000Z"
        { name := some "Zoe", course := some "EM", class_ := some "3C",
          birthDate := some "2007-01-01", registrationNumber := some "77",
          guardianName := some "Gui", guardianContact := none } wStore).1.name
      = "Zoe" := by
  have h := C2_offline_create_local (fun x => x) "2024-01-01T00:00:00.000Z" "S1" "d" "j"
    "2024-01-01" "Mat" "neutro" "obs" "2024-01-01"
    { status := 500, message := "down" } { status := 500, message := "down" }
    wStore wStore "2024-01-01T00:00:00.000Z" "Zoe" "EM" "3C" "2007-01-01" "77"
    (some "Gui") none { status := 500, message := "down" } wStore
    (by decide) (by decide) (by decide)
  exact ⟨h.1, h.2.1, h.2.2.2.2.2.2.2.2.2.2.2.2.2.1, h.2.2.2.2.2.2.2.2.2.2.2.2.2.2.1⟩

/-- C3: `studentStorage.delete` returns `true` exactly when a student with
the id existed; afterwards no student with the id, and no adaptation or
report whose `studentId` is the id, remains; when no student matched, the
store is untouched and `false` is returned.  The function reads nothing
from the remote API, so the remote delete outcome cannot influence it. -/
theorem C3_delete_cascade (id0 : String) (s : Store) :
    ((studentDelete id0 s).1 = true ↔ ∃ st ∈ s.students, st.id = id0)
    ∧ (∀ st ∈ (studentDelete id0 s).2.students, st.id ≠ id0)
    ∧ ((∃ st ∈ s.students, st.id = id0) →
        (∀ a ∈ (studentDelete id0 s).2.adaptations, a.studentId ≠ id0)
        ∧ (∀ r ∈ (studentDelete id0 s).2.reports, r.studentId ≠ id0))
    ∧ ((¬ ∃ st ∈ s.students, st.id = id0) →
        (studentDelete id0 s).1 = false ∧ (studentDelete id0 s).2 = s) := by
  by_cases hex : ∃ st ∈ s.students, st.id = id0
  · have hlt : (s.students.filter (fun st => st.id != id0)).length < s.students.length := by
      rw [List.length_filter_lt_length_iff_exists]
      obtain ⟨st, hmem, hid⟩ := hex
      exact ⟨st, hmem, by simp [hid]⟩
    have hcond : ((s.students.filter (fun st => st.id != id0)).length
        == s.students.length) = false := by
      simp [Nat.ne_of_lt hlt]
    have hres : studentDelete id0 s =
        (true,
          { s with
            students := s.students.filter (fun st => st.id != id0),
            adaptations := s.adaptations.filter (fun a => a.studentId != id0),
            reports := s.reports.filter (fun r => r.studentId != id0) }) := by
      unfold studentDelete adaptationDeleteByStudent reportDeleteByStudent
      simp [hcond]
    refine ⟨?_, ?_, ?_, ?_⟩
    · rw [hres]
      exact iff_of_true rfl hex
    · intro st hmem
      rw [hres] at hmem
      simp only [List.mem_filter, bne_iff_ne] at hmem
      exact hmem.2
    · intro _
      constructor
      · intro a hmem
        rw [hres] at hmem
        simp only [List.mem_filter, bne_iff_ne] at hmem
        exact hmem.2
      · intro r hmem
        rw [hres] at hmem
        simp only [List.mem_filter, bne_iff_ne] at hmem
        exact hmem.2
    · intro hn
      exact absurd hex hn
  · have hall : ∀ st ∈ s.students, (st.id != id0) = true := by
      intro st hmem
      simp only [bne_iff_ne]
      intro hcontra
      exact hex ⟨st, hmem, hcontra⟩
    have heq : s.students.filter (fun st => st.id != id0) = s.students :=
      List.filter_eq_self.mpr hall
    have hres : studentDelete id0 s = (false, s) := by
      unfold studentDelete
      simp [heq]
    refine ⟨?_, ?_, ?_, ?_⟩
    · rw [hres]
      exact iff_of_false (by simp) hex
    · intro st hmem
      rw [hres] at hmem
      intro hcontra
      exact hex ⟨st, hmem, hcontra⟩
    · intro hcontra
      exact absurd hcontra hex
    · intro _
      rw [hres]
      exact ⟨rfl, rfl⟩

/-- Witness for C3 at a concrete store: deleting student `S1` from
`wStore` succeeds and removes its adaptation and report. -/
theorem C3_delete_cascade_witness :
    (studentDelete "S1" wStore).1 = true
    ∧ (∀ a ∈ (studentDelete "S1" wStore).2.adaptations, a.studentId ≠ "S1")
    ∧ (∀ r ∈ (studentDelete "S1" wStore).2.reports, r.studentId ≠ "S1") := by
  have h := C3_delete_cascade "S1" wStore
  have hex : ∃ st ∈ wStore.students, st.id = "S1" := by decide
  exact ⟨h.1.mpr hex, (h.2.2.1 hex).1, (h.2.2.1 hex).2⟩

/-- C10: local reads are total: a missing `localStorage` item, an empty
item, or an item `JSON.parse` rejects all fall back to the default empty
collection, so `getAll` yields the empty list and `getById` yields none. -/
theorem C10_reads_total (parse : String → Option (List Student))
    (raw : Option String) (id0 : String)
    (h : raw = none ∨ ∃ item, raw = some item ∧ (item = "" ∨ parse item = none)) :
    studentsGetAll parse raw = [] ∧ studentsGetById parse raw id0 = none := by
  have hall : studentsGetAll parse raw = [] := by
    rcases h with rfl | ⟨item, rfl, hitem⟩
    · rfl
    · unfold studentsGetAll getFromStorage
      rcases hitem with rfl | hp
      · simp
      · by_cases hs : item = "" <;> simp [hs, hp]
  refine ⟨hall, ?_⟩
  unfold studentsGetById
  rw [hall]
  rfl

/-- Witness for C10 at a concrete unparsable item. -/
theorem C10_reads_total_witness :
    studentsGetAll (fun _ => none) (some "not json") = []
    ∧ studentsGetById (fun _ => none) (some "not json") "S1" = none :=
  C10_reads_total (fun _ => none) (some "not json") "S1"
    (Or.inr ⟨"not json", rfl, Or.inr rfl⟩)

/-- C5 counterexample: the claim says every list operation turns a 404
into the empty sequence, but `api.getStudents` has no `try`/`catch`, so a
404 from `apiFetch` propagates as an error instead of yielding `[]`. -/
theorem C5_students_404_propagates :
    getStudents (Except.error { status := 404, message := "Not Found" })
      = Except.error { status := 404, message := "Not Found" }
    ∧ ∀ xs : List Json,
        getStudents (Except.error { status := 404, message := "Not Found" })
          ≠ Except.ok xs := by
  refine ⟨rfl, ?_⟩
  intro xs h
  exact Except.noConfusion h

/-- C5 amended: all three list operations unwrap a bare array as-is, an
object's `value` array, or else the entity-named array, and default to the
empty list on any other shape; `getAdaptations` and `getReports` turn a
404 error into the empty list while other errors propagate; `getStudents`
propagates every error, 404 included. -/
theorem C5_list_unwrapping :
    (∀ f xs, unwrapEnvelope f (Json.arr xs) = xs)
    ∧ (∀ f fields xs, lookupField fields "value" = some (Json.arr xs) →
        unwrapEnvelope f (Json.obj fields) = xs)
    ∧ (∀ f fields xs, (∀ ys, lookupField fields "value" ≠ some (Json.arr ys)) →
        lookupField fields f = some (Json.arr xs) →
        unwrapEnvelope f (Json.obj fields) = xs)
    ∧ (∀ f fields, (∀ ys, lookupField fields "value" ≠ some (Json.arr ys)) →
        (∀ ys, lookupField fields f ≠ some (Json.arr ys)) →
        unwrapEnvelope f (Json.obj fields) = [])
    ∧ (∀ f, unwrapEnvelope f Json.null = [])
    ∧ (∀ f b, unwrapEnvelope f (Json.bool b) = [])
    ∧ (∀ f n, unwrapEnvelope f (Json.num n) = [])
    ∧ (∀ f s, unwrapEnvelope f (Json.str s) = [])
    ∧ (∀ res, getStudents (Except.ok res) = Except.ok (unwrapEnvelope "students" res))
    ∧ (∀ res, getAdaptations (Except.ok res) = Except.ok (unwrapEnvelope "adaptations" res))
    ∧ (∀ res, getReports (Except.ok res) = Except.ok (unwrapEnvelope "reports" res))
    ∧ (∀ e : ApiError, e.status = 404 →
        getAdaptations (Except.error e) = Except.ok []
        ∧ getReports (Except.error e) = Except.ok [])
    ∧ (∀ e : ApiError, e.status ≠ 404 →
        getAdaptations (Except.error e) = Except.error e
        ∧ getReports (Except.error e) = Except.error e)
    ∧ (∀ e : ApiError, getStudents (Except.error e) = Except.error e) := by
  have hobj : ∀ f fields, unwrapEnvelope f (Json.obj fields) =
      (match lookupField fields "value" with
       | some (Json.arr xs) => xs
       | _ =>
         match lookupField fields f with
         | some (Json.arr xs) => xs
         | _ => []) := fun _ _ => rfl
  refine ⟨fun _ _ => rfl, ?_, ?_, ?_, fun _ => rfl, fun _ _ => rfl, fun _ _ => rfl,
    fun _ _ => rfl, fun _ => rfl, fun _ => rfl, fun _ => rfl, ?_, ?_, fun _ => rfl⟩
  · intro f fields xs hv
    rw [hobj, hv]
  · intro f fields xs hv hf
    rw [hobj, hf]
    rcases hval : lookupField fields "value" with _ | jv
    · rfl
    · cases jv <;> first | rfl | exact absurd hval (hv _)
  · intro f fields hv hf
    rw [hobj]
    rcases hval : lookupField fields "value" with _ | jv
    · rcases hfld : lookupField fields f with _ | jf
      · rfl
      · cases jf <;> first | rfl | exact absurd hfld (hf _)
    · cases jv <;>
        first
          | (rcases hfld : lookupField fields f with _ | jf
             · rfl
             · cases jf <;> first | rfl | exact absurd hfld (hf _))
          | exact absurd hval (hv _)
  · intro e he
    unfold getAdaptations getReports
    simp [he]
  · intro e he
    unfold getAdaptations getReports
    simp [he]

/-- Witness for C5's amended claim: an enveloped adaptations list is
unwrapped, and a 404 yields the empty list for adaptations. -/
theorem C5_list_unwrapping_witness :
    unwrapEnvelope "adaptations" (Json.obj [("adaptations", Json.arr [Json.num 1])])
      = [Json.num 1]
    ∧ getAdaptations (Except.error { status := 404, message := "Not Found" })
      = Except.ok [] := by
  have h := C5_list_unwrapping
  refine ⟨?_, (h.2.2.2.2.2.2.2.2.2.2.2.1 { status := 404, message := "Not Found" } rfl).1⟩
  exact h.2.2.1 "adaptations" [("adaptations", Json.arr [Json.num 1])] [Json.num 1]
    (by intro ys hcontra; simp [lookupField] at hcontra) rfl

/-- When `findIndex` finds nothing, the in-place update finds nothing. -/
theorem updateFirstAdaptation_of_find_none (now id0 : String) (p : AdaptationPatch)
    (l : List Adaptation) (h : l.find? (fun x => x.id == id0) = none) :
    updateFirstAdaptation now id0 p l = none := by
  induction l with
  | nil => rfl
  | cons a rest ih =>
    by_cases ha : (a.id == id0) = true
    · simp [List.find?_cons, ha] at h
    · have ha' : (a.id == id0) = false := by simpa using ha
      simp only [List.find?_cons, ha'] at h
      simp [updateFirstAdaptation, ha', ih h]

/-- When `findIndex` finds a record, the in-place update patches exactly
the first matching record. -/
theorem updateFirstAdaptation_of_find_some (now id0 : String) (p : AdaptationPatch)
    (l : List Adaptation) (a : Adaptation)
    (h : l.find? (fun x => x.id == id0) = some a) :
    ∃ l', updateFirstAdaptation now id0 p l
      = some (patchedAdaptation now id0 p a, l') := by
  induction l with
  | nil => cases h
  | cons hd rest ih =>
    by_cases hhd : (hd.id == id0) = true
    · simp only [List.find?_cons, hhd] at h
      obtain rfl : hd = a := by simpa using h
      exact ⟨patchedAdaptation now id0 p hd :: rest, by simp [updateFirstAdaptation, hhd]⟩
    · have hhd' : (hd.id == id0) = false := by simpa using hhd
      simp only [List.find?_cons, hhd'] at h
      obtain ⟨l', hl'⟩ := ih h
      exact ⟨hd :: l', by simp [updateFirstAdaptation, hhd', hl']⟩

/-- C6: `api.updateAdaptation` PUTs the flat path; exactly when that
fails with 404 it retries once on the nested path and returns that second
outcome; other failures and successes stop at the flat attempt.  The form's
update branch is independent of every remote outcome and always applies
the submitted fields to the stored adaptation, preserving its id. -/
theorem C6_update_retry (toIso : String → String)
    (now aid d j dt : String) (flat nested flat2 nested2 : Except ApiError Json)
    (e : ApiError) (s : Store) (a : Adaptation)
    (hmem : s.adaptations.find? (fun x => x.id == aid) = some a) :
    (flat = Except.error e → e.status = 404 →
      updateAdaptationApi flat nested = (nested, [PutPath.flat, PutPath.nested]))
    ∧ (∀ v, flat = Except.ok v →
      updateAdaptationApi flat nested = (Except.ok v, [PutPath.flat]))
    ∧ (flat = Except.error e → e.status ≠ 404 →
      updateAdaptationApi flat nested = (Except.error e, [PutPath.flat]))
    ∧ adaptationFormUpdate toIso now aid d j dt flat nested s
        = adaptationFormUpdate toIso now aid d j dt flat2 nested2 s
    ∧ ∃ r, (adaptationFormUpdate toIso now aid d j dt flat nested s).1 = some r
        ∧ r.id = aid ∧ r.description = d ∧ r.justification = j
        ∧ r.date = toIso dt ∧ r.updatedAt = some now := by
  refine ⟨?_, ?_, ?_, rfl, ?_⟩
  · rintro rfl h404
    unfold updateAdaptationApi
    simp [h404]
  · rintro v rfl
    rfl
  · rintro rfl h404
    unfold updateAdaptationApi
    simp [h404]
  · obtain ⟨l', hl'⟩ := updateFirstAdaptation_of_find_some now aid
      { description := some d, justification := some j, date := some (toIso dt) }
      s.adaptations a hmem
    refine ⟨patchedAdaptation now aid
      { description := some d, justification := some j, date := some (toIso dt) } a,
      ?_, rfl, rfl, rfl, rfl, rfl⟩
    unfold adaptationFormUpdate adaptationUpdate
    rw [hl']

/-- Witness for C6: a 404 on the flat path at a concrete input retries
the nested path, and the local record is updated. -/
theorem C6_update_retry_witness :
    updateAdaptationApi (Except.error { status := 404, message := "Not Found" })
        (Except.ok Json.null)
      = (Except.ok Json.null, [PutPath.flat, PutPath.nested])
    ∧ ∃ r, (adaptationFormUpdate (fun x => x) "N" "A1" "d2" "j2" "2024-02-02"
        (Except.error { status := 404, message := "Not Found" })
        (Except.ok Json.null) wStore).1 = some r
      ∧ r.description = "d2" := by
  have h := C6_update_retry (fun x => x) "N" "A1" "d2" "j2" "2024-02-02"
    (Except.error { status := 404, message := "Not Found" }) (Except.ok Json.null)
    (Except.ok Json.null) (Except.ok Json.null)
    { status := 404, message := "Not Found" } wStore wAdaptation (by decide)
  obtain ⟨r, hr1, _, hr3, _⟩ := h.2.2.2.2
  exact ⟨h.1 rfl rfl, r, hr1, hr3⟩

/-- The local credential table's `some`-check holds exactly for the
member pairs. -/
theorem validCredentials_any_iff (email password : String) :
    (validCredentials.any (fun c => c.1 == email && c.2 == password) = true)
      ↔ (email, password) ∈ validCredentials := by
  rw [List.any_eq_true]
  constructor
  · rintro ⟨⟨a, b⟩, hc, hab⟩
    simp only [Bool.and_eq_true, beq_iff_eq] at hab
    obtain ⟨h1, h2⟩ := hab
    subst h1
    subst h2
    exact hc
  · intro h
    exact ⟨(email, password), h, by simp⟩

/-- C7: with both remote stages failed (unreachable endpoints), a pair in
the fixed local table whose user exists locally signs in: the chain
returns that user, persists it as current user, and the session token is
`mock-token-` followed by the user's id; a pair outside the table makes
the chain fail with the authentication error. -/
theorem C7_local_fallback (stage1 stage2 : Option (String × User))
    (email password : String) (s : Store)
    (h1 : stage1 = none) (h2 : stage2 = none) :
    (∀ u, (email, password) ∈ validCredentials →
      s.users.find? (fun x => x.email == email) = some u →
      signInChain stage1 stage2 email password s =
        Except.ok (u, { s with currentUser := some u },
          { token := some ("mock-token-" ++ u.id), user := some u }))
    ∧ ((email, password) ∉ validCredentials →
      signInChain stage1 stage2 email password s =
        Except.error "Usuário não encontrado. Verifique o e-mail ou senha.") := by
  subst h1
  subst h2
  constructor
  · intro u hcred hfind
    have hval : validCredentials.any (fun c => c.1 == email && c.2 == password) = true :=
      (validCredentials_any_iff email password).mpr hcred
    unfold signInChain authSignIn
    simp [hval, hfind]
  · intro hcred
    have hval : validCredentials.any (fun c => c.1 == email && c.2 == password) = false := by
      rw [Bool.eq_false_iff]
      intro hcontra
      exact hcred ((validCredentials_any_iff email password).mp hcontra)
    unfold signInChain authSignIn
    simp [hval]

/-- Witness for C7: the professor credentials sign in offline against
`wStore` and persist the mock token; an unknown pair fails. -/
theorem C7_local_fallback_witness :
    signInChain none none "professor@escola.com" "prof123" wStore =
      Except.ok (wProf, { wStore with currentUser := some wProf },
        { token := some ("mock-token-" ++ wProf.id), user := some wProf })
    ∧ signInChain none none "x@y.z" "nope" wStore =
      Except.error "Usuário não encontrado. Verifique o e-mail ou senha." := by
  have hok := C7_local_fallback none none "professor@escola.com" "prof123" wStore rfl rfl
  have hko := C7_local_fallback none none "x@y.z" "nope" wStore rfl rfl
  exact ⟨hok.1 wProf (by decide) (by decide), hko.2 (by decide)⟩

/-- Student analogue of the in-place-update miss lemma. -/
theorem updateFirstStudent_of_find_none (now : String) (cu : Option User)
    (id0 : String) (p : StudentPatch) (l : List Student)
    (h : l.find? (fun x => x.id == id0) = none) :
    updateFirstStudent now cu id0 p l = none := by
  induction l with
  | nil => rfl
  | cons a rest ih =>
    by_cases ha : (a.id == id0) = true
    · simp [List.find?_cons, ha] at h
    · have ha' : (a.id == id0) = false := by simpa using ha
      simp only [List.find?_cons, ha'] at h
      simp [updateFirstStudent, ha', ih h]

/-- Student analogue of the in-place-update hit lemma. -/
theorem updateFirstStudent_of_find_some (now : String) (cu : Option User)
    (id0 : String) (p : StudentPatch) (l : List Student) (a : Student)
    (h : l.find? (fun x => x.id == id0) = some a) :
    ∃ l', updateFirstStudent now cu id0 p l
      = some (patchedStudent now cu id0 p a, l') := by
  induction l with
  | nil => cases h
  | cons hd rest ih =>
    by_cases hhd : (hd.id == id0) = true
    · simp only [List.find?_cons, hhd] at h
      obtain rfl : hd = a := by simpa using h
      exact ⟨patchedStudent now cu id0 p hd :: rest, by simp [updateFirstStudent, hhd]⟩
    · have hhd' : (hd.id == id0) = false := by simpa using hhd
      simp only [List.find?_cons, hhd'] at h
      obtain ⟨l', hl'⟩ := ih h
      exact ⟨hd :: l', by simp [updateFirstStudent, hhd', hl']⟩

/-- Report analogue of the in-place-update miss lemma. -/
theorem updateFirstReport_of_find_none (now : String) (id0 : String)
    (p : ReportPatch) (l : List Report)
    (h : l.find? (fun x => x.id == id0) = none) :
    updateFirstReport now id0 p l = none := by
  induction l with
  | nil => rfl
  | cons a rest ih =>
    by_cases ha : (a.id == id0) = true
    · simp [List.find?_cons, ha] at h
    · have ha' : (a.id == id0) = false := by simpa using ha
      simp only [List.find?_cons, ha'] at h
      simp [updateFirstReport, ha', ih h]

/-- Report analogue of the in-place-update hit lemma. -/
theorem updateFirstReport_of_find_some (now : String) (id0 : String)
    (p : ReportPatch) (l : List Report) (a : Report)
    (h : l.find? (fun x => x.id == id0) = some a) :
    ∃ l', updateFirstReport now id0 p l = some (patchedReport now id0 p a, l') := by
  induction l with
  | nil => cases h
  | cons hd rest ih =>
    by_cases hhd : (hd.id == id0) = true
    · simp only [List.find?_cons, hhd] at h
      obtain rfl : hd = a := by simpa using h
      exact ⟨patchedReport now id0 p hd :: rest, by simp [updateFirstReport, hhd]⟩
    · have hhd' : (hd.id == id0) = false := by simpa using hhd
      simp only [List.find?_cons, hhd'] at h
      obtain ⟨l', hl'⟩ := ih h
      exact ⟨hd :: l', by simp [updateFirstReport, hhd', hl']⟩

/-- C9: for every entity kind, `update(id, partial)` on a hit returns the
record with the identifier forced back to `id` (whatever the partial's own
`id` says), `updatedAt` stamped with now (and `updatedBy` from the current
user for students), the partial's present fields applied and every absent
field taken unchanged from the first stored record with that id; on a miss
it returns none and leaves the store untouched. -/
theorem C9_update_frame (now : String) (s : Store) (id0 : String)
    (p : StudentPatch) (pa : AdaptationPatch) (pr : ReportPatch) :
    (∀ st, s.students.find? (fun x => x.id == id0) = some st →
      ∃ r, (studentUpdate now id0 p s).1 = some r
        ∧ r.id = id0
        ∧ r.updatedAt = some now
        ∧ r.updatedBy = s.currentUser.map (fun u => u.id)
        ∧ r.name = p.name.getD st.name
        ∧ r.course = p.course.getD st.course
        ∧ r.class_ = p.class_.getD st.class_
        ∧ r.birthDate = p.birthDate.getD st.birthDate
        ∧ r.registrationNumber = p.registrationNumber.getD st.registrationNumber
        ∧ r.createdAt = p.createdAt.getD st.createdAt
        ∧ r.createdBy = p.createdBy.getD st.createdBy
        ∧ (p.guardianName = none → r.guardianName = st.guardianName)
        ∧ (∀ v, p.guardianName = some v → r.guardianName = some v)
        ∧ (p.guardianContact = none → r.guardianContact = st.guardianContact)
        ∧ (∀ v, p.guardianContact = some v → r.guardianContact = some v))
    ∧ (s.students.find? (fun x => x.id == id0) = none →
        studentUpdate now id0 p s = (none, s))
    ∧ (∀ a0, s.adaptations.find? (fun x => x.id == id0) = some a0 →
      ∃ r, (adaptationUpdate now id0 pa s).1 = some r
        ∧ r.id = id0 ∧ r.updatedAt = some now
        ∧ r.studentId = pa.studentId.getD a0.studentId
        ∧ r.description = pa.description.getD a0.description
        ∧ r.justification = pa.justification.getD a0.justification
        ∧ r.date = pa.date.getD a0.date
        ∧ r.createdAt = pa.createdAt.getD a0.createdAt
        ∧ r.createdBy = pa.createdBy.getD a0.createdBy)
    ∧ (s.adaptations.find? (fun x => x.id == id0) = none →
        adaptationUpdate now id0 pa s = (none, s))
    ∧ (∀ r0, s.reports.find? (fun x => x.id == id0) = some r0 →
      ∃ r, (reportUpdate now id0 pr s).1 = some r
        ∧ r.id = id0 ∧ r.updatedAt = some now
        ∧ r.studentId = pr.studentId.getD r0.studentId
        ∧ r.teacherId = pr.teacherId.getD r0.teacherId
        ∧ r.teacherName = pr.teacherName.getD r0.teacherName
        ∧ r.subject = pr.subject.getD r0.subject
        ∧ r.date = pr.date.getD r0.date
        ∧ r.result = pr.result.getD r0.result
        ∧ r.description = pr.description.getD r0.description
        ∧ r.createdAt = pr.createdAt.getD r0.createdAt)
    ∧ (s.reports.find? (fun x => x.id == id0) = none →
        reportUpdate now id0 pr s = (none, s)) := by
  refine ⟨?_, ?_, ?_, ?_, ?_, ?_⟩
  · intro st hfind
    obtain ⟨l', hl'⟩ := updateFirstStudent_of_find_some now s.currentUser id0 p
      s.students st hfind
    refine ⟨patchedStudent now s.currentUser id0 p st, ?_, rfl, rfl, rfl, rfl, rfl,
      rfl, rfl, rfl, rfl, rfl, ?_, ?_, ?_, ?_⟩
    · unfold studentUpdate
      rw [hl']
    · intro h
      simp [patchedStudent, h]
    · intro v h
      simp [patchedStudent, h]
    · intro h
      simp [patchedStudent, h]
    · intro v h
      simp [patchedStudent, h]
  · intro hfind
    unfold studentUpdate
    rw [updateFirstStudent_of_find_none now s.currentUser id0 p s.students hfind]
  · intro a0 hfind
    obtain ⟨l', hl'⟩ := updateFirstAdaptation_of_find_some now id0 pa
      s.adaptations a0 hfind
    refine ⟨patchedAdaptation now id0 pa a0, ?_, rfl, rfl, rfl, rfl, rfl, rfl, rfl, rfl⟩
    unfold adaptationUpdate
    rw [hl']
  · intro hfind
    unfold adaptationUpdate
    rw [updateFirstAdaptation_of_find_none now id0 pa s.adaptations hfind]
  · intro r0 hfind
    obtain ⟨l', hl'⟩ := updateFirstReport_of_find_some now id0 pr s.reports r0 hfind
    refine ⟨patchedReport now id0 pr r0, ?_, rfl, rfl, rfl, rfl, rfl, rfl, rfl, rfl,
      rfl, rfl⟩
    unfold reportUpdate
    rw [hl']
  · intro hfind
    unfold reportUpdate
    rw [updateFirstReport_of_find_none now id0 pr s.reports hfind]

/-- Witness for C9: updating student `S1` in `wStore` with a patch that
contains a conflicting id keeps the id, stamps the metadata, applies the
patched name and preserves the untouched course. -/
theorem C9_update_frame_witness :
    ∃ r, (studentUpdate "N" "S1"
        { id := some "HACK", name := some "New" } wStore).1 = some r
      ∧ r.id = "S1" ∧ r.name = "New" ∧ r.course = "EM"
      ∧ r.updatedAt = some "N" := by
  have h := (C9_update_frame "N" wStore "S1" { id := some "HACK", name := some "New" }
    {} {}).1 wStudent (by decide)
  obtain ⟨r, h1, h2, h3, _, h5, h6, _⟩ := h
  exact ⟨r, h1, h2, h5.trans rfl, h6.trans rfl, h3⟩

/-- C8: from an empty store the initializers seed exactly two users (one
per role), two students, one adaptation and one report; the adaptation and
report point at the first sample student, and their `createdBy`,
`teacherId` and `teacherName` reference the seeded coordinator and
professor.  Each initializer runs only when its guard collection (users,
students respectively) is empty and never touches an already-populated
collection, so re-running both after the first run changes nothing. -/
theorem C8_seeding (now now2 now3 : String) (s : Store)
    (hu : s.users ≠ []) (hs : s.students ≠ []) :
    (∃ cu pu st1 st2 a r,
      (initializeAll now emptyStore).users = [cu, pu]
      ∧ (initializeAll now emptyStore).students = [st1, st2]
      ∧ (initializeAll now emptyStore).adaptations = [a]
      ∧ (initializeAll now emptyStore).reports = [r]
      ∧ cu.role = "coordenador" ∧ pu.role = "professor"
      ∧ a.studentId = st1.id ∧ r.studentId = st1.id
      ∧ a.createdBy = cu.id ∧ r.teacherId = pu.id ∧ r.teacherName = pu.name)
    ∧ initializeAll now2 (initializeAll now emptyStore) = initializeAll now emptyStore
    ∧ initializeDefaultUsers s = s
    ∧ initializeDefaultData now3 s = s := by
  refine ⟨⟨_, _, _, _, _, _, rfl, rfl, rfl, rfl, rfl, rfl, rfl, rfl, ?_, ?_, ?_⟩,
    rfl, ?_, ?_⟩
  · exact (orElseStr_some_empty "id-0").symm ▸ rfl
  · exact rfl
  · exact rfl
  · have hlen : (s.users.length == 0) = false := by
      simp [List.length_eq_zero, hu]
    simp [initializeDefaultUsers, hlen]
  · have hlen : 0 < s.students.length := List.length_pos.mpr hs
    simp [initializeDefaultData, hlen]

/-- Witness for C8: the initializers leave the already-populated `wStore`
unchanged. -/
theorem C8_seeding_witness :
    initializeDefaultUsers wStore = wStore
    ∧ initializeDefaultData "T3" wStore = wStore := by
  have h := C8_seeding "T1" "T2" "T3" wStore (by decide) (by decide)
  exact ⟨h.2.2.1, h.2.2.2⟩

/-- Looking a key up after a `Map.set`: the set key now maps to the set
value, every other key is untouched. -/
theorem lookupKey_upsert (k k' : String) (v : Json) (m : List (String × Json)) :
    lookupKey k (upsert m k' v) = if k' = k then some v else lookupKey k m := by
  induction m with
  | nil => simp [upsert, lookupKey]
  | cons hd tl ih =>
    obtain ⟨k0, v0⟩ := hd
    by_cases h0 : k0 = k'
    · subst h0
      by_cases hk : k0 = k <;> simp [upsert, lookupKey, hk]
    · by_cases hk0 : k0 = k
      · subst hk0
        have hk' : k' ≠ k0 := fun he => h0 he.symm
        simp [upsert, lookupKey, h0, hk']
      · simp [upsert, lookupKey, h0, hk0, ih]

/-- Looking a key up after inserting a batch of entries: the last batch
entry with that merge key wins, otherwise the original map answers. -/
theorem lookupKey_mergeInto (k : String) (l : List Json) (m : List (String × Json)) :
    lookupKey k (mergeInto m l)
      = match lastKeyed k l with
        | some v => some v
        | none => lookupKey k m := by
  induction l generalizing m with
  | nil => simp [mergeInto, lastKeyed]
  | cons a t ih =>
    have hstep : mergeInto m (a :: t) = mergeInto (upsert m (mergeKey a) a) t := rfl
    rw [hstep, ih]
    cases hlt : lastKeyed k t with
    | some v => simp [lastKeyed, hlt]
    | none =>
      by_cases ha : mergeKey a = k <;> simp [lastKeyed, hlt, lookupKey_upsert, ha]

/-- Keys after a `Map.set`: unchanged when the key was present, appended
otherwise. -/
theorem map_fst_upsert (m : List (String × Json)) (k : String) (v : Json) :
    (upsert m k v).map Prod.fst
      = if k ∈ m.map Prod.fst then m.map Prod.fst else m.map Prod.fst ++ [k] := by
  induction m with
  | nil => simp [upsert]
  | cons hd tl ih =>
    obtain ⟨k0, v0⟩ := hd
    by_cases h0 : k0 = k
    · subst h0
      simp [upsert]
    · have hk0 : k ≠ k0 := fun he => h0 he.symm
      by_cases hk : k ∈ tl.map Prod.fst <;> simp [upsert, h0, hk0, hk, ih]

/-- Entries after a `Map.set` come from the old map or are the set pair. -/
theorem mem_upsert (m : List (String × Json)) (k : String) (v : Json)
    (p : String × Json) (hp : p ∈ upsert m k v) : p ∈ m ∨ p = (k, v) := by
  induction m with
  | nil =>
    simp [upsert] at hp
    exact Or.inr hp
  | cons hd tl ih =>
    obtain ⟨k0, v0⟩ := hd
    by_cases h0 : k0 = k
    · subst h0
      rw [show upsert ((k0, v0) :: tl) k0 v = (k0, v) :: tl from by simp [upsert]] at hp
      rcases List.mem_cons.mp hp with h | h
      · exact Or.inr h
      · exact Or.inl (List.mem_cons_of_mem _ h)
    · rw [show upsert ((k0, v0) :: tl) k v = (k0, v0) :: upsert tl k v from
        by simp [upsert, h0]] at hp
      rcases List.mem_cons.mp hp with h | h
      · exact Or.inl (by rw [h]; exact List.mem_cons_self _ _)
      · rcases ih h with h' | h'
        · exact Or.inl (List.mem_cons_of_mem _ h')
        · exact Or.inr h'

/-- The empty map is well formed. -/
theorem mapWF_nil : mapWF [] := ⟨by simp, by simp⟩

/-- A `Map.set` with a merge-keyed entry preserves well-formedness. -/
theorem mapWF_upsert (m : List (String × Json)) (a : Json) (h : mapWF m) :
    mapWF (upsert m (mergeKey a) a) := by
  obtain ⟨hkeys, hnodup⟩ := h
  constructor
  · intro p hp
    rcases mem_upsert m (mergeKey a) a p hp with hmem | rfl
    · exact hkeys p hmem
    · rfl
  · rw [map_fst_upsert]
    by_cases hk : mergeKey a ∈ m.map Prod.fst
    · simpa [hk] using hnodup
    · simp [hk, List.nodup_append, hnodup]

/-- Inserting a batch preserves well-formedness. -/
theorem mapWF_mergeInto (m : List (String × Json)) (l : List Json) (h : mapWF m) :
    mapWF (mergeInto m l) := by
  induction l generalizing m with
  | nil => exact h
  | cons a t ih => exact ih _ (mapWF_upsert m a h)

/-- A head entry whose key no batch entry carries survives batch
insertion in place. -/
theorem mergeInto_cons_of_not_key (k : String) (v : Json) (m0 : List (String × Json))
    (l : List Json) :
    (∀ a ∈ l, mergeKey a ≠ k) →
    mergeInto ((k, v) :: m0) l = (k, v) :: mergeInto m0 l := by
  induction l generalizing m0 with
  | nil => intro _; rfl
  | cons a t ih =>
    intro h
    have hne : k ≠ mergeKey a := fun he => h a (List.mem_cons_self _ _) he.symm
    have hstep : mergeInto ((k, v) :: m0) (a :: t)
        = mergeInto (upsert ((k, v) :: m0) (mergeKey a) a) t := rfl
    rw [hstep]
    have hup : upsert ((k, v) :: m0) (mergeKey a) a
        = (k, v) :: upsert m0 (mergeKey a) a := by
      simp [upsert, hne]
    rw [hup]
    exact ih _ (fun b hb => h b (List.mem_cons_of_mem _ hb))

/-- Re-inserting a well-formed map's values into an empty map rebuilds
the map. -/
theorem mergeInto_values (m : List (String × Json)) (h : mapWF m) :
    mergeInto [] (mergeValues m) = m := by
  induction m with
  | nil => rfl
  | cons hd tl ih =>
    obtain ⟨k, v⟩ := hd
    obtain ⟨hkeys, hnodup⟩ := h
    have hk : mergeKey v = k := hkeys (k, v) (List.mem_cons_self _ _)
    have hnodup' : (k :: tl.map Prod.fst).Nodup := by simpa using hnodup
    have hnotin : k ∉ tl.map Prod.fst := (List.nodup_cons.mp hnodup').1
    have htl : mapWF tl :=
      ⟨fun p hp => hkeys p (List.mem_cons_of_mem _ hp), (List.nodup_cons.mp hnodup').2⟩
    have hstep : mergeInto [] (mergeValues ((k, v) :: tl))
        = mergeInto (upsert [] (mergeKey v) v) (mergeValues tl) := rfl
    rw [hstep]
    have hup : upsert [] (mergeKey v) v = [(k, v)] := by simp [upsert, hk]
    rw [hup]
    rw [mergeInto_cons_of_not_key k v [] (mergeValues tl) ?hnk]
    · rw [ih htl]
    case hnk =>
      intro b hb
      obtain ⟨q, hq, rfl⟩ := List.mem_map.mp hb
      rw [hkeys q (List.mem_cons_of_mem _ hq)]
      intro hcontra
      exact hnotin (hcontra ▸ List.mem_map_of_mem Prod.fst hq)

/-- C4: the Merge-on-Read combination is idempotent.  With the remote
result and the local entries fixed, a second run is the same pure function
of the same inputs; the stronger fact proved here is that even feeding the
first merge's output back in as the remote-derived set and re-merging the
same local entries changes no key's value: the merged map answers every
identifier (merge key) lookup identically after one and after two runs. -/
theorem C4_merge_idempotent (remote localEntries : List Json) (k : String) :
    lookupKey k (mergeById (mergeValues (mergeById remote localEntries)) localEntries)
      = lookupKey k (mergeById remote localEntries) := by
  have hwf : mapWF (mergeById remote localEntries) :=
    mapWF_mergeInto _ localEntries (mapWF_mergeInto _ remote mapWF_nil)
  unfold mergeById
  unfold mergeById at hwf
  rw [mergeInto_values _ hwf]
  simp only [lookupKey_mergeInto]
  cases hlt : lastKeyed k localEntries <;> simp [hlt]


